import Mathlib

/-!
Verification of the smartbid-compliance usage-metering and entitlement core.

Shallow embedding of the relevant program parts:

* client state and gate (part_000 lines 514-521): `UsageLimits`, `isTrialOver`;
* the transactional counter update (part_000 lines 675-711): `incrementUsage`;
* the Firestore path helpers (part_000 lines 103-115): `getUsageDocRefPath`,
  `getReportsCollectionRefPath`;
* the compliance-percentage helper (part_000 lines 117-124):
  `getCompliancePercentage`, with JavaScript numbers modelled as exact
  rationals and `toFixed(1)` followed by `parseFloat` modelled as rounding
  to the nearest tenth;
* the Express server routes (server.cjs): the webhook dispatch
  (`webhookDispatch`, `webhookHandler`) and the portal-session route
  (`createPortalSession`).

The document store is modelled as a total map from user id to an optional
stored record; a Firestore transaction is modelled as a single atomic step.
JavaScript truthiness on optional strings (absent or empty string is falsy)
is modelled by `jsTruthyStr`, and `x || 0` on an optional number by
`jsNumOrZero` (for number-valued `x`, `x || 0` equals `x` when present and
`0` when absent, since `0 || 0` is `0`).
-/

namespace SmartBid

/-- Stored usage document (Firestore `usage_limits/main_tracker`): every
field may be absent, since merge-writes from the webhook create documents
holding only `isSubscribed` and `stripeCustomerId`. -/
structure UsageRecord where
  initiatorChecks : Option Int
  bidderChecks : Option Int
  isSubscribed : Option Bool
  stripeCustomerId : Option String
deriving Repr, DecidableEq

/-- A document with no fields at all (the base for a merge into an absent
document). -/
def emptyRecord : UsageRecord :=
  { initiatorChecks := none, bidderChecks := none,
    isSubscribed := none, stripeCustomerId := none }

/-- Client-side `usageLimits` state (part_000 lines 514-518): the React
state always holds concrete values (`isSubscribed` is defaulted to `false`
by the snapshot listener). -/
structure UsageLimits where
  initiatorChecks : Int
  bidderChecks : Int
  isSubscribed : Bool
deriving Repr, DecidableEq

/-- The two counter fields a metered action may increment (the `roleKey`
argument of `incrementUsage`). -/
inductive CounterKey where
  | initiatorChecks
  | bidderChecks
deriving Repr, DecidableEq

/-- The counter field other than the given one. -/
def CounterKey.other : CounterKey → CounterKey
  | .initiatorChecks => .bidderChecks
  | .bidderChecks => .initiatorChecks

/-- Read a counter field of a stored record (`currentData[roleKey]`). -/
def UsageRecord.counter : UsageRecord → CounterKey → Option Int
  | r, .initiatorChecks => r.initiatorChecks
  | r, .bidderChecks => r.bidderChecks

/-- Write a counter field of a stored record
(`currentData[roleKey] = newCount`). -/
def UsageRecord.setCounter : UsageRecord → CounterKey → Int → UsageRecord
  | r, .initiatorChecks, v => { r with initiatorChecks := some v }
  | r, .bidderChecks, v => { r with bidderChecks := some v }

/-- JavaScript `x || 0` on an optional number value. -/
def jsNumOrZero : Option Int → Int
  | none => 0
  | some v => v

/-- JavaScript truthiness of an optional string: absent and the empty
string are falsy. -/
def jsTruthyStr : Option String → Bool
  | none => false
  | some s => !(s == "")

/-- Trial limit constant, part_000 line 21. -/
def FREE_TRIAL_LIMIT : Int := 3

/-- Entitlement gate from part_000 line 521:
`usageLimits.bidderChecks >= FREE_TRIAL_LIMIT && !usageLimits.isSubscribed`. -/
def isTrialOver (usageLimits : UsageLimits) : Bool :=
  decide (usageLimits.bidderChecks ≥ FREE_TRIAL_LIMIT) && !usageLimits.isSubscribed

/-- Specification contract of the entitlement gate (spec section 4.1):
`isBlocked(usage, limit)` with the trial limit as an explicit parameter;
the code instance is `isTrialOver = isBlocked · FREE_TRIAL_LIMIT`. -/
def isBlocked (usage : UsageLimits) (limit : Int) : Bool :=
  decide (usage.bidderChecks ≥ limit) && !usage.isSubscribed

/-- The record written when the transaction finds no document
(part_000 lines 690-694). -/
def initialUsageData : UsageRecord :=
  { initiatorChecks := some 0, bidderChecks := some 0,
    isSubscribed := some false, stripeCustomerId := none }

/-- The transactional counter update of part_000 lines 675-711, modelled as
one atomic step from the document snapshot read inside the transaction to
the full record written back by `transaction.set`. -/
def incrementUsage (docSnap : Option UsageRecord) (roleKey : CounterKey) : UsageRecord :=
  let currentData :=
    match docSnap with
    | some d => d
    | none => initialUsageData
  let newCount := jsNumOrZero (currentData.counter roleKey) + 1
  currentData.setCounter roleKey newCount

/-- The document store, as a total map from user id to the optional stored
usage record. -/
abbrev Store := String → Option UsageRecord

/-- Overwrite one user's document. -/
def updateStore (store : Store) (userId : String) (record : UsageRecord) : Store :=
  fun uid => if uid = userId then some record else store uid

/-- `incrementUsage` lifted to the store: the transaction reads the user's
document and writes the updated record back under the same key. -/
def incrementUsageStore (store : Store) (userId : String) (roleKey : CounterKey) : Store :=
  updateStore store userId (incrementUsage (store userId) roleKey)

/-- The `appId` value computed by `getUsageDocRef` (part_000 line 105):
the value of the `__app_id` global when defined, else `default-app-id`. -/
def usageAppIdSegment : Option String → String
  | some v => v
  | none => "default-app-id"

/-- The `appId` value computed by `getReportsCollectionRef` (part_000
line 112): the source tests whether the `__app_id` global is defined but
then uses the string literal `__app_id`, not the value of the global. -/
def reportsAppIdSegment : Option String → String
  | some _ => "__app_id"
  | none => "default-app-id"

/-- Document path built by `getUsageDocRef` (part_000 lines 104-108). -/
def getUsageDocRefPath (appIdGlobal : Option String) (userId : String) : String :=
  "artifacts/" ++ usageAppIdSegment appIdGlobal ++ "/users/" ++ userId
    ++ "/usage_limits" ++ "/main_tracker"

/-- Collection path built by `getReportsCollectionRef` (part_000
lines 111-115). -/
def getReportsCollectionRefPath (appIdGlobal : Option String) : String :=
  "artifacts/" ++ reportsAppIdSegment appIdGlobal ++ "/compliance_reports"

/-- One compliance finding, after the report schema of part_000
lines 43-77; `complianceScore` and `negotiationStance` may be absent. -/
structure Finding where
  requirementFromRFQ : String
  complianceScore : Option ℚ
  bidResponseSummary : String
  flag : String
  category : String
  negotiationStance : Option String
deriving Repr, DecidableEq

/-- A persisted compliance report; `findings` may be absent
(`report.findings || []` in the source). -/
structure Report where
  userLogin : String
  timestamp : Int
  executiveSummary : String
  findings : Option (List Finding)
deriving Repr, DecidableEq

/-- Rounding to one decimal place: the model of
`parseFloat(x.toFixed(1))` on an exact rational. -/
def roundTo1 (value : ℚ) : ℚ := (round (value * 10) : ℚ) / 10

/-- Sum of the findings' scores with a missing score counted as zero. -/
def sumScores (findings : List Finding) : ℚ :=
  (findings.map (fun item => item.complianceScore.getD 0)).sum

/-- The compliance-percentage helper of part_000 lines 117-124, over exact
rationals. -/
def getCompliancePercentage (report : Report) : ℚ :=
  let findings := report.findings.getD []
  let totalScore := findings.foldl (fun sum item => sum + item.complianceScore.getD 0) 0
  let totalRequirements := findings.length
  let maxScore : ℚ := (totalRequirements : ℚ) * 1
  if 0 < maxScore then roundTo1 (totalScore / maxScore * 100) else 0

/-- A verified billing event, as the server dispatches on it
(server.cjs lines 77-95): a checkout-completed session carries the
client reference (user id) and the provider-assigned customer id, either
of which the payload may omit. -/
inductive StripeEvent where
  | checkoutSessionCompleted (clientReferenceId : Option String) (customer : Option String)
  | customerSubscriptionDeleted (customer : Option String)
  | otherEvent (eventType : String)
deriving Repr, DecidableEq

/-- Response of the webhook route: `res.send()` with no body, or the 400
sent on signature failure. -/
inductive WebhookResponse where
  | okEmpty
  | badRequest (message : String)
deriving Repr, DecidableEq

/-- The merge-write of server.cjs line 85:
`.set({ isSubscribed: true, stripeCustomerId }, { merge: true })` applied
to the user's current document (an upsert into `emptyRecord` when the
document is absent). -/
def mergeSubscribe (existing : Option UsageRecord) (customer : Option String) : UsageRecord :=
  { existing.getD emptyRecord with
      isSubscribed := some true, stripeCustomerId := customer }

/-- Dispatch on a verified event (server.cjs lines 77-97). `adminReady`
models `admin.apps.length` being nonzero; the subscription-deleted branch
is the comment-only block of lines 90-95. -/
def webhookDispatch (adminReady : Bool) (store : Store) (event : StripeEvent) :
    Store × WebhookResponse :=
  match event with
  | .checkoutSessionCompleted clientReferenceId customer =>
      if jsTruthyStr clientReferenceId && adminReady then
        let userId := clientReferenceId.getD ""
        (updateStore store userId (mergeSubscribe (store userId) customer), .okEmpty)
      else
        (store, .okEmpty)
  | .customerSubscriptionDeleted _ => (store, .okEmpty)
  | .otherEvent _ => (store, .okEmpty)

/-- The full webhook route (server.cjs lines 68-98). Signature
verification is delegated to the billing library, modelled by the
`constructEvent` parameter applied to the raw body, the signature header
and the webhook secret, as in `stripe.webhooks.constructEvent`. -/
def webhookHandler (constructEvent : String → String → String → Except String StripeEvent)
    (webhookSecret : String) (adminReady : Bool) (store : Store)
    (rawBody signatureHeader : String) : Store × WebhookResponse :=
  match constructEvent rawBody signatureHeader webhookSecret with
  | .error errMessage => (store, .badRequest ("Webhook Error: " ++ errMessage))
  | .ok event => webhookDispatch adminReady store event

/-- Response of the portal-session route. -/
inductive PortalResponse where
  | okUrl (url : String)
  | notFound (error : String)
  | serverError (error : String)
deriving Repr, DecidableEq

/-- Observable outcome of one portal-session request: the response plus
whether the route read the usage store and whether it called the billing
provider. -/
structure PortalOutcome where
  response : PortalResponse
  lookedUpUsage : Bool
  calledBillingProvider : Bool
deriving Repr, DecidableEq

/-- Fixed return address passed to the billing provider
(server.cjs line 57). -/
def RETURN_URL : String := "https://smartbid-secure.onrender.com"

/-- The portal-session route (server.cjs lines 42-65). `sessionUrlFor`
models `stripe.billingPortal.sessions.create`, mapping the customer id and
the return address to the provider-issued session URL; the route returns
the store unchanged since it performs no write. -/
def createPortalSession (stripeSecretKey : Option String) (store : Store)
    (sessionUrlFor : String → String → String) (userId : String) :
    Store × PortalOutcome :=
  if !jsTruthyStr stripeSecretKey then
    (store, { response := .serverError "Server missing Stripe Key",
              lookedUpUsage := false, calledBillingProvider := false })
  else
    let stripeCustomerId := (store userId).bind UsageRecord.stripeCustomerId
    if !jsTruthyStr stripeCustomerId then
      (store, { response := .notFound "No subscription found for this user.",
                lookedUpUsage := true, calledBillingProvider := false })
    else
      (store, { response := .okUrl (sessionUrlFor (stripeCustomerId.getD "") RETURN_URL),
                lookedUpUsage := true, calledBillingProvider := true })

/-- Outcome of one `handleAnalyze` attempt: the resulting usage document,
whether the metered analysis proceeded, and whether the paywall opened. -/
structure AnalyzeOutcome where
  usageStore : Option UsageRecord
  analysisProceeded : Bool
  paywallOpened : Bool
deriving Repr, DecidableEq

/-- Modelled from the spec: the source under src cuts off inside
`handleAnalyze` (part_000 lines 714-721 show only the gate check opening
the paywall); the remainder of the function body (the early return on
block, the analysis itself and the `incrementUsage` call with the
`bidderChecks` role key) is missing. Per the spec, the gate is evaluated
synchronously before the metered action; when blocked the action does not
proceed and increments no counter, and when allowed the audit proceeds and
increments exactly the `bidderChecks` counter. -/
def handleAnalyze (usageLimits : UsageLimits) (usageStore : Option UsageRecord) :
    AnalyzeOutcome :=
  if isTrialOver usageLimits then
    { usageStore := usageStore, analysisProceeded := false, paywallOpened := true }
  else
    { usageStore := some (incrementUsage usageStore .bidderChecks),
      analysisProceeded := true, paywallOpened := false }

/-! Helper lemmas about the store and the merge-write, shared by several
claims below. -/

theorem updateStore_apply_same (store : Store) (userId : String) (record : UsageRecord) :
    updateStore store userId record userId = some record := by
  simp [updateStore]

theorem updateStore_overwrite (store : Store) (userId : String) (r₁ r₂ : UsageRecord) :
    updateStore (updateStore store userId r₁) userId r₂ = updateStore store userId r₂ := by
  funext uid
  by_cases h : uid = userId <;> simp [updateStore, h]

theorem mergeSubscribe_replay (existing : Option UsageRecord) (customer : Option String) :
    mergeSubscribe (some (mergeSubscribe existing customer)) customer
      = mergeSubscribe existing customer := rfl

/-- C1: the entitlement gate blocks a metered action if and only if the
usage record has `bidderChecks` at or above the limit and `isSubscribed`
false; the gate is the pure predicate `isTrialOver`, which is the spec
contract `isBlocked` instantiated at `limit = FREE_TRIAL_LIMIT = 3`. -/
theorem isTrialOver_blocks_iff :
    (∀ (usage : UsageLimits) (limit : Int),
        isBlocked usage limit = true ↔
          limit ≤ usage.bidderChecks ∧ usage.isSubscribed = false)
    ∧ (∀ usage : UsageLimits, isTrialOver usage = isBlocked usage FREE_TRIAL_LIMIT)
    ∧ FREE_TRIAL_LIMIT = 3 := by
  refine ⟨fun usage limit => ?_, fun usage => rfl, rfl⟩
  simp [isBlocked, ge_iff_le]

/-- C2: one completed `incrementUsage` call leaves the chosen counter at
its prior value (zero when the document or the field is absent) plus one,
leaves the other counter and the remaining fields unchanged (an absent
document is treated as all-zero counters with `isSubscribed` false), and
at the store level the document exists afterwards (lazy creation); the
read and the full-record write are one atomic transaction step in the
model. -/
theorem incrementUsage_increments :
    ∀ (docSnap : Option UsageRecord) (roleKey : CounterKey),
      (incrementUsage docSnap roleKey).counter roleKey
          = some (jsNumOrZero ((docSnap.getD initialUsageData).counter roleKey) + 1)
      ∧ (incrementUsage docSnap roleKey).counter roleKey.other
          = (docSnap.getD initialUsageData).counter roleKey.other
      ∧ (incrementUsage docSnap roleKey).isSubscribed
          = (docSnap.getD initialUsageData).isSubscribed
      ∧ (incrementUsage docSnap roleKey).stripeCustomerId
          = (docSnap.getD initialUsageData).stripeCustomerId
      ∧ ∀ (store : Store) (userId : String),
          incrementUsageStore store userId roleKey userId
            = some (incrementUsage (store userId) roleKey) := by
  intro docSnap roleKey
  cases docSnap <;> cases roleKey <;>
    simp [incrementUsage, incrementUsageStore, updateStore, UsageRecord.counter,
      UsageRecord.setCounter, CounterKey.other, initialUsageData, jsNumOrZero]

/-- C3 (code bug): the claim says the usage document path and the reports
collection path share the same per-application namespace for every value
of the ambient application id, but `getReportsCollectionRef` uses the
string literal `__app_id` instead of the value of the `__app_id` global,
so whenever the global is defined with any other value the two paths live
under different namespaces; with the global undefined both fall back to
`default-app-id`. -/
theorem reports_collection_appid_mismatch :
    usageAppIdSegment (some "prod-app") = "prod-app"
    ∧ reportsAppIdSegment (some "prod-app") = "__app_id"
    ∧ usageAppIdSegment (some "prod-app") ≠ reportsAppIdSegment (some "prod-app")
    ∧ getUsageDocRefPath (some "prod-app") "u1"
        = "artifacts/prod-app/users/u1/usage_limits/main_tracker"
    ∧ getReportsCollectionRefPath (some "prod-app")
        = "artifacts/__app_id/compliance_reports"
    ∧ usageAppIdSegment none = reportsAppIdSegment none :=
  ⟨rfl, rfl, by decide, rfl, rfl, rfl⟩

/-- C4: delivering the identical `checkout.session.completed` event twice
is idempotent: starting from any usage-store state, the second delivery
leaves the store (and the response) exactly as the first delivery left
them, because the merge-write of the same values is a no-op on replay. -/
theorem webhook_checkout_replay_idempotent :
    ∀ (adminReady : Bool) (store : Store) (clientReferenceId customer : Option String),
      webhookDispatch adminReady
          (webhookDispatch adminReady store
            (.checkoutSessionCompleted clientReferenceId customer)).1
          (.checkoutSessionCompleted clientReferenceId customer)
        = webhookDispatch adminReady store
            (.checkoutSessionCompleted clientReferenceId customer) := by
  intro adminReady store clientReferenceId customer
  by_cases h : (jsTruthyStr clientReferenceId && adminReady) = true
  · simp only [webhookDispatch, h, if_true]
    rw [updateStore_apply_same, mergeSubscribe_replay, updateStore_overwrite]
  · simp [webhookDispatch, h]

/-- C5: a webhook request whose signature fails verification is answered
with a 400 response and mutates no store state. -/
theorem webhook_invalid_signature_rejected
    (constructEvent : String → String → String → Except String StripeEvent)
    (webhookSecret : String) (adminReady : Bool) (store : Store)
    (rawBody signatureHeader errMessage : String)
    (h : constructEvent rawBody signatureHeader webhookSecret
          = .error errMessage) :
    webhookHandler constructEvent webhookSecret adminReady store rawBody signatureHeader
      = (store, .badRequest ("Webhook Error: " ++ errMessage)) := by
  simp [webhookHandler, h]

/-- Witness for C5 at a concrete verifier that rejects the request. -/
theorem webhook_invalid_signature_rejected_witness :
    (fun (_ _ _ : String) =>
        (Except.error "invalid signature" : Except String StripeEvent))
        "rawBody" "t=1,v1=deadbeef" "whsec_test" = Except.error "invalid signature"
    ∧ webhookHandler
        (fun _ _ _ => Except.error "invalid signature") "whsec_test" true
        (fun _ => none) "rawBody" "t=1,v1=deadbeef"
      = ((fun _ => none : Store), .badRequest ("Webhook Error: " ++ "invalid signature")) :=
  ⟨rfl, webhook_invalid_signature_rejected _ _ _ _ _ _ _ rfl⟩

/-- C6: a verified `checkout.session.completed` event carrying a user id
and a billing customer id merge-writes exactly `isSubscribed = true` and
the customer id into that user's record, keeping both counters at the
value they had before the event (absent stays absent). -/
theorem webhook_checkout_merge_frame (store : Store) (userId customerId : String)
    (h : userId ≠ "") :
    (webhookDispatch true store
        (.checkoutSessionCompleted (some userId) (some customerId))).1 userId
      = some { initiatorChecks := ((store userId).getD emptyRecord).initiatorChecks,
               bidderChecks := ((store userId).getD emptyRecord).bidderChecks,
               isSubscribed := some true,
               stripeCustomerId := some customerId } := by
  have ht : jsTruthyStr (some userId) = true := by simp [jsTruthyStr, h]
  simp [webhookDispatch, ht, updateStore_apply_same, mergeSubscribe]

/-- Witness for C6: merging into an absent record of a concrete user. -/
theorem webhook_checkout_merge_frame_witness :
    ("user-1" : String) ≠ ""
    ∧ (webhookDispatch true (fun _ => none)
          (.checkoutSessionCompleted (some "user-1") (some "cus_123"))).1 "user-1"
        = some { initiatorChecks := none, bidderChecks := none,
                 isSubscribed := some true, stripeCustomerId := some "cus_123" } :=
  ⟨by decide, by
    simpa [emptyRecord] using
      webhook_checkout_merge_frame (fun _ => none) "user-1" "cus_123" (by decide)⟩

/-- C7: the portal-session route never mutates local state; with the
billing secret key unconfigured it answers 500 before looking anything
up or calling the provider; with no truthy billing customer id on file it
answers 404 without calling the provider; with a customer id on file it
returns the provider-issued session URL verbatim. -/
theorem createPortalSession_spec (stripeSecretKey : Option String) (store : Store)
    (sessionUrlFor : String → String → String) (userId : String) :
    (createPortalSession stripeSecretKey store sessionUrlFor userId).1 = store
    ∧ (jsTruthyStr stripeSecretKey = false →
        (createPortalSession stripeSecretKey store sessionUrlFor userId).2
          = { response := .serverError "Server missing Stripe Key",
              lookedUpUsage := false, calledBillingProvider := false })
    ∧ (jsTruthyStr stripeSecretKey = true →
        jsTruthyStr ((store userId).bind UsageRecord.stripeCustomerId) = false →
        (createPortalSession stripeSecretKey store sessionUrlFor userId).2
          = { response := .notFound "No subscription found for this user.",
              lookedUpUsage := true, calledBillingProvider := false })
    ∧ (∀ customerId : String, jsTruthyStr stripeSecretKey = true →
        (store userId).bind UsageRecord.stripeCustomerId = some customerId →
        customerId ≠ "" →
        (createPortalSession stripeSecretKey store sessionUrlFor userId).2
          = { response := .okUrl (sessionUrlFor customerId RETURN_URL),
              lookedUpUsage := true, calledBillingProvider := true }) := by
  refine ⟨?_, fun hk => ?_, fun hk hc => ?_, fun customerId hk hc hne => ?_⟩
  · simp only [createPortalSession]
    split
    · rfl
    · split <;> rfl
  · simp [createPortalSession, hk]
  · simp [createPortalSession, hk, hc]
  · have ht : jsTruthyStr (some customerId) = true := by simp [jsTruthyStr, hne]
    simp [createPortalSession, hk, hc, ht]

/-- Store sample for the portal witness: every user has a linked billing
customer id. -/
def storeWithCustomer : Store :=
  fun _ => some { emptyRecord with stripeCustomerId := some "cus_9" }

/-- Witness for C7 covering the three scenarios at concrete inputs. -/
theorem createPortalSession_spec_witness :
    (jsTruthyStr (none : Option String) = false
      ∧ (createPortalSession none storeWithCustomer (fun c _ => c) "u1").2
          = { response := .serverError "Server missing Stripe Key",
              lookedUpUsage := false, calledBillingProvider := false })
    ∧ (jsTruthyStr (some "sk_test") = true
      ∧ jsTruthyStr (((fun _ => none : Store) "u1").bind UsageRecord.stripeCustomerId) = false
      ∧ (createPortalSession (some "sk_test") (fun _ => none) (fun c _ => c) "u1").2
          = { response := .notFound "No subscription found for this user.",
              lookedUpUsage := true, calledBillingProvider := false })
    ∧ (jsTruthyStr (some "sk_test") = true
      ∧ (storeWithCustomer "u1").bind UsageRecord.stripeCustomerId = some "cus_9"
      ∧ ("cus_9" : String) ≠ ""
      ∧ (createPortalSession (some "sk_test") storeWithCustomer (fun c _ => c) "u1").2
          = { response := .okUrl "cus_9", lookedUpUsage := true,
              calledBillingProvider := true }) := by
  refine ⟨⟨rfl, (createPortalSession_spec none storeWithCustomer (fun c _ => c) "u1").2.1 rfl⟩,
    ⟨rfl, rfl,
      (createPortalSession_spec (some "sk_test") (fun _ => none) (fun c _ => c) "u1").2.2.1
        rfl rfl⟩,
    ⟨rfl, rfl, by decide, ?_⟩⟩
  exact (createPortalSession_spec (some "sk_test") storeWithCustomer (fun c _ => c) "u1").2.2.2
    "cus_9" rfl rfl (by decide)

/-- C8: whenever the entitlement gate blocks, `handleAnalyze` opens the
paywall, the analysis does not proceed, and the usage document is left
exactly as it was (no counter incremented). -/
theorem handleAnalyze_blocked_no_increment (usageLimits : UsageLimits)
    (usageStore : Option UsageRecord) (h : isTrialOver usageLimits = true) :
    handleAnalyze usageLimits usageStore
      = { usageStore := usageStore, analysisProceeded := false, paywallOpened := true } := by
  simp [handleAnalyze, h]

/-- Witness for C8: a user at the limit (3 of 3, not subscribed) is
blocked and the stored record is untouched. -/
theorem handleAnalyze_blocked_no_increment_witness :
    isTrialOver { initiatorChecks := 0, bidderChecks := 3, isSubscribed := false } = true
    ∧ handleAnalyze { initiatorChecks := 0, bidderChecks := 3, isSubscribed := false }
          (some { initiatorChecks := some 0, bidderChecks := some 3,
                  isSubscribed := some false, stripeCustomerId := none })
        = { usageStore := some ⟨some 0, some 3, some false, none⟩,
            analysisProceeded := false, paywallOpened := true } :=
  ⟨by decide, handleAnalyze_blocked_no_increment _ _ (by decide)⟩

/-- C9: a verified `customer.subscription.deleted` event changes no store
state and is still acknowledged with the empty success response, and in
fact every verified event is acknowledged with the empty success
response. -/
theorem webhook_subscription_deleted_noop :
    ∀ (adminReady : Bool) (store : Store) (customer : Option String),
      webhookDispatch adminReady store (.customerSubscriptionDeleted customer)
        = (store, .okEmpty)
      ∧ ∀ event : StripeEvent, (webhookDispatch adminReady store event).2 = .okEmpty := by
  intro adminReady store customer
  refine ⟨rfl, fun event => ?_⟩
  cases event with
  | checkoutSessionCompleted u c =>
      by_cases h : (jsTruthyStr u && adminReady) = true <;> simp [webhookDispatch, h]
  | customerSubscriptionDeleted c => rfl
  | otherEvent t => rfl

/-! Claim C10 is about `getCompliancePercentage`. The empty and absent
cases hold as claimed, but for a non-empty findings list the function does
not return the exact mean times 100: the source applies `toFixed(1)`, so
the result is rounded to one decimal place. -/

/-- Finding sample with the given requirement label and score. -/
def mkFinding (requirement : String) (score : Option ℚ) : Finding :=
  { requirementFromRFQ := requirement, complianceScore := score,
    bidResponseSummary := "summary", flag := "PARTIAL", category := "OTHER",
    negotiationStance := none }

/-- Report sample with three findings scoring 1, 0 and 0: the exact mean
times 100 is 100/3, but the code rounds to one decimal. -/
def thirdReport : Report :=
  { userLogin := "myuser", timestamp := 0, executiveSummary := "summary",
    findings := some [mkFinding "r1" (some 1), mkFinding "r2" (some 0),
      mkFinding "r3" (some 0)] }

theorem foldl_scores (l : List Finding) (init : ℚ) :
    l.foldl (fun sum item => sum + item.complianceScore.getD 0) init
      = init + sumScores l := by
  induction l generalizing init with
  | nil => simp [sumScores]
  | cons f fs ih => simp [sumScores, ih]; ring

/-- C10 (counterexample): on a report with three findings scoring 1, 0
and 0 the code returns 33.3 = 333/10, not the exact value
(1 + 0 + 0) / 3 * 100 = 100/3 the claim asserts for non-empty findings. -/
theorem getCompliancePercentage_rounding_counterexample :
    getCompliancePercentage thirdReport = 333 / 10
    ∧ (333 / 10 : ℚ) ≠ (1 + 0 + 0) / 3 * 100 := by
  constructor
  · have hround : round ((1000 : ℚ) / 3) = 333 := by rw [round_eq]; norm_num
    simp [getCompliancePercentage, thirdReport, mkFinding, roundTo1]
    norm_num
    rw [hround]
    norm_num
  · norm_num

/-- C10 (amended): `getCompliancePercentage` is total over every report:
with absent or empty findings it returns exactly 0 without dividing, and
with non-empty findings it returns the sum of the scores (missing scores
counted as 0) divided by the number of findings, times 100, rounded to
one decimal place. -/
theorem getCompliancePercentage_total (report : Report) :
    (report.findings.getD [] = [] → getCompliancePercentage report = 0)
    ∧ (∀ f fs, report.findings = some (f :: fs) →
        getCompliancePercentage report
          = roundTo1 (sumScores (f :: fs) / ((f :: fs).length : ℚ) * 100)) := by
  constructor
  · intro h
    simp [getCompliancePercentage, h]
  · intro f fs h
    have hlen : (0 : ℚ) < (((f :: fs).length : ℕ) : ℚ) * 1 := by
      rw [mul_one]
      exact_mod_cast Nat.succ_pos fs.length
    simp only [getCompliancePercentage, h, Option.getD_some]
    rw [if_pos hlen, foldl_scores, zero_add, mul_one]

/-- Report sample with two findings scoring 1 and one half. -/
def twoFindingsReport : Report :=
  { userLogin := "myuser", timestamp := 0, executiveSummary := "summary",
    findings := some [mkFinding "r1" (some 1), mkFinding "r2" (some (1 / 2))] }

/-- Report sample with no findings field at all. -/
def emptyFindingsReport : Report :=
  { userLogin := "myuser", timestamp := 0, executiveSummary := "summary",
    findings := none }

/-- Witness for the amended C10 at concrete reports: a report with no
findings field yields 0, and a two-finding report yields the rounded
mean times 100. -/
theorem getCompliancePercentage_total_witness :
    (emptyFindingsReport.findings.getD [] = []
      ∧ getCompliancePercentage emptyFindingsReport = 0)
    ∧ (twoFindingsReport.findings
          = some (mkFinding "r1" (some 1) :: [mkFinding "r2" (some (1 / 2))])
      ∧ getCompliancePercentage twoFindingsReport
          = roundTo1 (sumScores (mkFinding "r1" (some 1) :: [mkFinding "r2" (some (1 / 2))])
              / ((mkFinding "r1" (some 1) :: [mkFinding "r2" (some (1 / 2))]).length : ℚ)
              * 100)) :=
  ⟨⟨rfl, (getCompliancePercentage_total emptyFindingsReport).1 rfl⟩,
   ⟨rfl, (getCompliancePercentage_total twoFindingsReport).2 _ _ rfl⟩⟩

end SmartBid
